import Mathlib

/-!
Shallow embedding of `src/common/EclipseGridInspector.cpp` (corner-point grid
inspector).  C++ doubles are modelled as rationals; C++ exceptions are
modelled with `Except Err`; reading a `std::vector` out of range (undefined
behaviour in C++) is modelled as `Err.indexError`; IEEE division by zero
(which produces a non-finite double) is modelled as `Err.divisionByZero`.
Integer arithmetic is exact (`Int`), with `Int.tdiv` for C++ integer
division (truncation toward zero) and `Int.fdiv` where the source applies
`std::floor` to an exact double quotient.
-/

namespace Dune

/-- Error outcomes of the embedded inspector operations. -/
inductive Err where
  | fieldAbsent : Err
  | configuration : Err
  | coordSizeMismatch : Err
  | zcornSizeMismatch : Err
  | outOfBounds : Nat → Err
  | indexError : Err
  | divisionByZero : Err
deriving DecidableEq, Repr

deriving instance DecidableEq for Except

/-- External data source (the Eclipse file reader), reduced to the four
fields the inspector consults: the COORD and ZCORN double arrays, the
SPECGRID dimensions record and the DIMENS integer field. -/
structure GridDataSource where
  coord : Option (List ℚ)
  zcorn : Option (List ℚ)
  specgrid : Option (Int × Int × Int)
  dimens : Option (List Int)
deriving DecidableEq, Repr

/-- Reading a named floating-point field fails when the field is absent. -/
def getFloatingPointValue (f : Option (List ℚ)) : Except Err (List ℚ) :=
  match f with
  | some v => Except.ok v
  | none => Except.error Err.fieldAbsent

/-- Element access into a double array (`std::vector<double>::operator[]`);
an out-of-range access is undefined behaviour in C++, modelled as an error. -/
def atIdx (l : List ℚ) (n : Int) : Except Err ℚ :=
  if 0 ≤ n ∧ n.toNat < l.length then Except.ok (l.getD n.toNat 0)
  else Except.error Err.indexError

/-- Element access into an integer array. -/
def intAt (l : List Int) (n : Nat) : Except Err Int :=
  match l.get? n with
  | some v => Except.ok v
  | none => Except.error Err.indexError

/-- The inspector: the data source reference `parser_` plus the logical grid
size `logical_gridsize_` read at construction time. -/
structure EclipseGridInspector where
  gridSource : GridDataSource
  logical_gridsize : Int × Int × Int
deriving DecidableEq, Repr

/-- Constructor `EclipseGridInspector::EclipseGridInspector`: requires COORD
and ZCORN to be present, then reads the grid size from SPECGRID when
present, else from the first three entries of DIMENS, else fails. -/
def mkEclipseGridInspector (p : GridDataSource) : Except Err EclipseGridInspector :=
  if p.coord.isSome ∧ p.zcorn.isSome then
    match p.specgrid with
    | some d => Except.ok ⟨p, d⟩
    | none =>
      match p.dimens with
      | some dim =>
        (intAt dim 0).bind fun a =>
        (intAt dim 1).bind fun b =>
        (intAt dim 2).bind fun c =>
        Except.ok ⟨p, (a, b, c)⟩
      | none => Except.error Err.configuration
  else Except.error Err.configuration

/-- Bounds check `checkLogicalCoords`: each logical coordinate must lie in
`[0, n_axis)`; the error names the offending axis (1, 2 or 3). -/
def checkLogicalCoords (sz : Int × Int × Int) (i j k : Int) : Except Err Unit :=
  if i < 0 ∨ sz.1 ≤ i then Except.error (Err.outOfBounds 1)
  else if j < 0 ∨ sz.2.1 ≤ j then Except.error (Err.outOfBounds 2)
  else if k < 0 ∨ sz.2.2 ≤ k then Except.error (Err.outOfBounds 3)
  else Except.ok ()

/-- Linear cell index to 0-based logical coordinates,
`cellIdxToLogicalCoords`.  The source computes the 1-based horizon-local
index with `std::floor` of a double quotient (`Int.fdiv` on exact values)
and the later quotients with C++ integer division (`Int.tdiv`).  Note that
the source maps a zero remainder of `horIdx` modulo `nx` to
`logical_gridsize_[1]`, i.e. to `ny`. -/
def cellIdxToLogicalCoords (insp : EclipseGridInspector) (cell_idx : Int) : Int × Int × Int :=
  let nx := insp.logical_gridsize.1
  let ny := insp.logical_gridsize.2.1
  let horIdx0 := (cell_idx + 1) - (Int.fdiv (cell_idx + 1) (nx*ny)) * (nx*ny)
  let horIdx := if horIdx0 = 0 then nx*ny else horIdx0
  let i0 := horIdx - (Int.fdiv horIdx nx) * nx
  let i := if i0 = 0 then ny else i0
  let j := Int.tdiv (horIdx - i) nx + 1
  let k := Int.tdiv (cell_idx + 1 - nx*(j-1) - 1) (nx*ny) + 1
  (i - 1, j - 1, k - 1)

/-- The 8 corner depths of one cell, in the positional order of the source
array `cellz`: index 0 = LLL, 1 = HLL, 2 = LHL, 3 = HHL, 4 = LLH, 5 = HLH,
6 = LHH, 7 = HHH (per the comments in `cellDips`). -/
structure CellZ where
  c0 : ℚ
  c1 : ℚ
  c2 : ℚ
  c3 : ℚ
  c4 : ℚ
  c5 : ℚ
  c6 : ℚ
  c7 : ℚ
deriving DecidableEq, Repr

/-- Corner-depth extraction `cellZvals`: fetch ZCORN, check its size, and
read the 8 corner values by stride arithmetic.  The source performs no
bounds check on the logical coordinates here. -/
def cellZvals (insp : EclipseGridInspector) (i j k : Int) : Except Err CellZ :=
  let nx := insp.logical_gridsize.1
  let ny := insp.logical_gridsize.2.1
  let nz := insp.logical_gridsize.2.2
  (getFloatingPointValue insp.gridSource.zcorn).bind fun z =>
  if 8*(nx*ny*nz) ≠ (z.length : Int) then Except.error Err.zcornSizeMismatch
  else
    let d0 : Int := 1
    let d1 : Int := 2*nx
    let d2 : Int := 4*nx*ny
    let ix := 2*(i*d0 + j*d1 + k*d2)
    (atIdx z ix).bind fun c0 =>
    (atIdx z (ix + d0)).bind fun c1 =>
    (atIdx z (ix + d1)).bind fun c2 =>
    (atIdx z (ix + d1 + d0)).bind fun c3 =>
    (atIdx z (ix + d2)).bind fun c4 =>
    (atIdx z (ix + d2 + d0)).bind fun c5 =>
    (atIdx z (ix + d2 + d1)).bind fun c6 =>
    (atIdx z (ix + d2 + d1 + d0)).bind fun c7 =>
    Except.ok ⟨c0, c1, c2, c3, c4, c5, c6, c7⟩

/-- Dip computation `cellDips`: bounds check, fetch and size-check COORD and
ZCORN, extract the 8 corner depths, then average rise-over-run in x and in
y using the top coordinates of the adjacent pillars.  The source divides by
the pillar spacings without checking them for zero. -/
def cellDips (insp : EclipseGridInspector) (i j k : Int) : Except Err (ℚ × ℚ) :=
  let nx := insp.logical_gridsize.1
  let ny := insp.logical_gridsize.2.1
  let nz := insp.logical_gridsize.2.2
  (checkLogicalCoords insp.logical_gridsize i j k).bind fun _ =>
  (getFloatingPointValue insp.gridSource.coord).bind fun pillc =>
  if 6*((nx+1)*(ny+1)) ≠ (pillc.length : Int) then Except.error Err.coordSizeMismatch
  else
    (getFloatingPointValue insp.gridSource.zcorn).bind fun z =>
    if 8*(nx*ny*nz) ≠ (z.length : Int) then Except.error Err.zcornSizeMismatch
    else
      (cellZvals insp i j k).bind fun cz =>
      let numxpill := nx + 1
      let pix := i + j*numxpill
      (atIdx pillc (6*(pix+1))).bind fun xN =>
      (atIdx pillc (6*pix)).bind fun x0 =>
      let cell_xlength := xN - x0
      if cell_xlength = 0 then Except.error Err.divisionByZero
      else
        let xr0 := (cz.c1 - cz.c0)/cell_xlength
        let xr1 := (cz.c3 - cz.c2)/cell_xlength
        let xr2 := (cz.c5 - cz.c4)/cell_xlength
        let xr3 := (cz.c7 - cz.c6)/cell_xlength
        (atIdx pillc (6*(pix+numxpill)+1)).bind fun yN =>
        (atIdx pillc (6*pix+1)).bind fun y0 =>
        let cell_ylength := yN - y0
        if cell_ylength = 0 then Except.error Err.divisionByZero
        else
          let yr0 := (cz.c2 - cz.c0)/cell_ylength
          let yr1 := (cz.c3 - cz.c1)/cell_ylength
          let yr2 := (cz.c6 - cz.c4)/cell_ylength
          let yr3 := (cz.c7 - cz.c5)/cell_ylength
          Except.ok ((xr0+xr1+xr2+xr3)/4, (yr0+yr1+yr2+yr3)/4)

/-- Volume computation `cellVolumeVerticalPillars`: bounds check, fetch and
size-check COORD and ZCORN, base area as half the (signed) 2-D cross
product of the diagonals of the 4 pillar-top quadrilateral, times the
average of the 4 vertical corner-depth differences. -/
def cellVolumeVerticalPillars (insp : EclipseGridInspector) (i j k : Int) : Except Err ℚ :=
  let nx := insp.logical_gridsize.1
  let ny := insp.logical_gridsize.2.1
  let nz := insp.logical_gridsize.2.2
  (checkLogicalCoords insp.logical_gridsize i j k).bind fun _ =>
  (getFloatingPointValue insp.gridSource.coord).bind fun pillc =>
  if 6*((nx+1)*(ny+1)) ≠ (pillc.length : Int) then Except.error Err.coordSizeMismatch
  else
    (getFloatingPointValue insp.gridSource.zcorn).bind fun z =>
    if 8*(nx*ny*nz) ≠ (z.length : Int) then Except.error Err.zcornSizeMismatch
    else
      let numxpill := nx + 1
      let pix := i + j*numxpill
      (atIdx pillc (6*pix)).bind fun px0 =>
      (atIdx pillc (6*(pix+1))).bind fun px1 =>
      (atIdx pillc (6*(pix+numxpill))).bind fun px2 =>
      (atIdx pillc (6*(pix+numxpill+1))).bind fun px3 =>
      (atIdx pillc (6*pix+1)).bind fun py0 =>
      (atIdx pillc (6*(pix+1)+1)).bind fun py1 =>
      (atIdx pillc (6*(pix+numxpill)+1)).bind fun py2 =>
      (atIdx pillc (6*(pix+numxpill+1)+1)).bind fun py3 =>
      let diag1x := px3 - px0
      let diag1y := py3 - py0
      let diag2x := px2 - px1
      let diag2y := py2 - py1
      let area := (1/2)*(diag1x*diag2y - diag1y*diag2x)
      let d0 : Int := 1
      let d1 : Int := 2*nx
      let d2 : Int := 4*nx*ny
      let ix := 2*(i*d0 + j*d1 + k*d2)
      (atIdx z ix).bind fun c0 =>
      (atIdx z (ix + d0)).bind fun c1 =>
      (atIdx z (ix + d1)).bind fun c2 =>
      (atIdx z (ix + d1 + d0)).bind fun c3 =>
      (atIdx z (ix + d2)).bind fun c4 =>
      (atIdx z (ix + d2 + d0)).bind fun c5 =>
      (atIdx z (ix + d2 + d1)).bind fun c6 =>
      (atIdx z (ix + d2 + d1 + d0)).bind fun c7 =>
      let averzdiff := (1/4)*((c4-c0)+(c5-c1)+(c6-c2)+(c7-c3))
      Except.ok (averzdiff*area)

/-- Sentinel used by `getGridLimits` for the running extrema (`DBL_MAX`,
the largest finite double). -/
def DBL_MAX : ℚ := 2^1024 - 2^971

/-- Update of the running `(xmin, xmax, ymin, ymax)` accumulator by one
`(x, y)` pair, with the source's comparison-and-assign conditionals. -/
def limitsUpd (acc : ℚ × ℚ × ℚ × ℚ) (x y : ℚ) : ℚ × ℚ × ℚ × ℚ :=
  (if x < acc.1 then x else acc.1,
   if x > acc.2.1 then x else acc.2.1,
   if y < acc.2.2.1 then y else acc.2.2.1,
   if y > acc.2.2.2 then y else acc.2.2.2)

/-- One iteration of the `getGridLimits` pillar loop: reads entries 0, 1, 3
and 4 of pillar `p` (top x, top y, bottom x, bottom y) and updates the
extrema with both pairs. -/
def limitsStep (coord : List ℚ) (acc : ℚ × ℚ × ℚ × ℚ) (p : Nat) :
    Except Err (ℚ × ℚ × ℚ × ℚ) :=
  (atIdx coord (6*(p:Int))).bind fun xt =>
  (atIdx coord (6*(p:Int)+1)).bind fun yt =>
  (atIdx coord (6*(p:Int)+3)).bind fun xb =>
  (atIdx coord (6*(p:Int)+4)).bind fun yb =>
  Except.ok (limitsUpd (limitsUpd acc xt yt) xb yb)

/-- The `getGridLimits` pillar loop over a list of pillar indices. -/
def getGridLimitsLoop (coord : List ℚ) :
    List Nat → (ℚ × ℚ × ℚ × ℚ) → Except Err (ℚ × ℚ × ℚ × ℚ)
  | [], acc => Except.ok acc
  | p :: rest, acc =>
    (limitsStep coord acc p).bind fun acc2 => getGridLimitsLoop coord rest acc2

/-- Value of `*std::min_element` on a nonempty range `h :: t`. -/
def minElementVal (h : ℚ) (t : List ℚ) : ℚ :=
  t.foldl (fun acc x => if x < acc then x else acc) h

/-- Value of `*std::max_element` on a nonempty range `h :: t`. -/
def maxElementVal (h : ℚ) (t : List ℚ) : ℚ :=
  t.foldl (fun acc x => if x > acc then x else acc) h

/-- Grid extents `getGridLimits`: requires COORD, ZCORN and SPECGRID to be
present, loops over all `(nx+1)*(ny+1)` pillars updating the x/y extrema
from the top and bottom pairs, and takes zmin/zmax over the whole ZCORN
array.  No array size is validated. -/
def getGridLimits (insp : EclipseGridInspector) : Except Err (ℚ × ℚ × ℚ × ℚ × ℚ × ℚ) :=
  if insp.gridSource.coord.isSome ∧ insp.gridSource.zcorn.isSome ∧
      insp.gridSource.specgrid.isSome then
    (getFloatingPointValue insp.gridSource.coord).bind fun coord =>
    (getFloatingPointValue insp.gridSource.zcorn).bind fun zcorn =>
    (getGridLimitsLoop coord
        (List.range ((insp.logical_gridsize.1+1)*(insp.logical_gridsize.2.1+1)).toNat)
        (DBL_MAX, -DBL_MAX, DBL_MAX, -DBL_MAX)).bind fun a =>
    match zcorn with
    | [] => Except.error Err.indexError
    | zh :: zt =>
      Except.ok (a.1, a.2.1, a.2.2.1, a.2.2.2, minElementVal zh zt, maxElementVal zh zt)
  else Except.error Err.configuration

/-- Grid size accessor `gridSize`. -/
def gridSize (insp : EclipseGridInspector) : Int × Int × Int :=
  insp.logical_gridsize

/-- A data source with no fields at all. -/
def srcEmpty : GridDataSource := ⟨none, none, none, none⟩

/-- C1: for grid size (2,3,1) the linear indices 1 and 3 (both valid cell
indices) are mapped to the same triple (2,0,0), whose first component is
not below nx = 2: the conversion is not a bijection onto the logical box
and the zero remainder of the horizon-local index modulo nx is mapped to
ny, not nx. -/
theorem cellIdxToLogicalCoords_collision :
    cellIdxToLogicalCoords ⟨srcEmpty, (2, 3, 1)⟩ 1 = (2, 0, 0) ∧
    cellIdxToLogicalCoords ⟨srcEmpty, (2, 3, 1)⟩ 3 = (2, 0, 0) ∧
    ¬((2:Int) < 2) := by
  refine ⟨rfl, rfl, by decide⟩

/-- Successful array read: an index within the array evaluates to `getD`. -/
theorem atIdx_ok (l : List ℚ) (n : Int) (h0 : 0 ≤ n) (h1 : n < (l.length : Int)) :
    atIdx l n = Except.ok (l.getD n.toNat 0) := by
  unfold atIdx
  rw [if_pos]
  exact ⟨h0, by omega⟩

/-- A first coordinate outside `[0,nx)` fails the bounds check on axis 1. -/
theorem checkLogicalCoords_oob1 (nx ny nz i j k : Int)
    (h : i < 0 ∨ nx ≤ i) :
    checkLogicalCoords (nx, ny, nz) i j k = Except.error (Err.outOfBounds 1) := by
  unfold checkLogicalCoords
  rw [if_pos h]

/-- A second coordinate outside `[0,ny)` fails the bounds check on axis 2. -/
theorem checkLogicalCoords_oob2 (nx ny nz i j k : Int)
    (h1 : ¬(i < 0 ∨ nx ≤ i)) (h : j < 0 ∨ ny ≤ j) :
    checkLogicalCoords (nx, ny, nz) i j k = Except.error (Err.outOfBounds 2) := by
  unfold checkLogicalCoords
  rw [if_neg h1, if_pos h]

/-- A third coordinate outside `[0,nz)` fails the bounds check on axis 3. -/
theorem checkLogicalCoords_oob3 (nx ny nz i j k : Int)
    (h1 : ¬(i < 0 ∨ nx ≤ i)) (h2 : ¬(j < 0 ∨ ny ≤ j))
    (h : k < 0 ∨ nz ≤ k) :
    checkLogicalCoords (nx, ny, nz) i j k = Except.error (Err.outOfBounds 3) := by
  unfold checkLogicalCoords
  rw [if_neg h1, if_neg h2, if_pos h]

/-- In-bounds coordinates pass the bounds check. -/
theorem checkLogicalCoords_ok (nx ny nz i j k : Int)
    (hi0 : 0 ≤ i) (hi : i < nx) (hj0 : 0 ≤ j) (hj : j < ny)
    (hk0 : 0 ≤ k) (hk : k < nz) :
    checkLogicalCoords (nx, ny, nz) i j k = Except.ok () := by
  have h1 : ¬(i < 0 ∨ nx ≤ i) := by omega
  have h2 : ¬(j < 0 ∨ ny ≤ j) := by omega
  have h3 : ¬(k < 0 ∨ nz ≤ k) := by omega
  unfold checkLogicalCoords
  rw [if_neg h1, if_neg h2, if_neg h3]

/-- C8: construction fails with a configuration error exactly when COORD or
ZCORN is absent or both SPECGRID and DIMENS are absent; with SPECGRID
present the grid size is its dimension triple, and with SPECGRID absent but
DIMENS present it is the first three DIMENS integers. -/
theorem mkEclipseGridInspector_spec :
    (∀ p : GridDataSource,
        (mkEclipseGridInspector p = Except.error Err.configuration ↔
          (p.coord = none ∨ p.zcorn = none ∨ (p.specgrid = none ∧ p.dimens = none)))) ∧
    (∀ (p : GridDataSource) (d : Int × Int × Int),
        p.coord.isSome → p.zcorn.isSome → p.specgrid = some d →
        mkEclipseGridInspector p = Except.ok ⟨p, d⟩) ∧
    (∀ (p : GridDataSource) (a b c : Int) (rest : List Int),
        p.coord.isSome → p.zcorn.isSome → p.specgrid = none →
        p.dimens = some (a :: b :: c :: rest) →
        mkEclipseGridInspector p = Except.ok ⟨p, (a, b, c)⟩) := by
  refine ⟨?_, ?_, ?_⟩
  · rintro ⟨co, zc, sg, dm⟩
    rcases co with _ | co <;> rcases zc with _ | zc <;> rcases sg with _ | sg <;>
      rcases dm with _ | dm <;>
      (try rcases dm with _ | ⟨a, _ | ⟨b, _ | ⟨c, t⟩⟩⟩) <;>
      simp [mkEclipseGridInspector, intAt, Except.bind]
  · rintro ⟨co, zc, sg, dm⟩ d hco hzc hsg
    rcases co with _ | co
    · simp at hco
    rcases zc with _ | zc
    · simp at hzc
    subst hsg
    simp [mkEclipseGridInspector]
  · rintro ⟨co, zc, sg, dm⟩ a b c rest hco hzc hsg hdm
    rcases co with _ | co
    · simp at hco
    rcases zc with _ | zc
    · simp at hzc
    subst hsg
    subst hdm
    simp [mkEclipseGridInspector, intAt, Except.bind]

/-- Witness for C8 at concrete data sources: a source without ZCORN fails
with a configuration error; with both SPECGRID and DIMENS the size comes
from SPECGRID; with DIMENS only it comes from DIMENS. -/
theorem mkEclipseGridInspector_spec_w :
    mkEclipseGridInspector ⟨some [], none, some (4, 5, 6), none⟩ =
      Except.error Err.configuration ∧
    mkEclipseGridInspector ⟨some [], some [], some (4, 5, 6), some [7, 8, 9]⟩ =
      Except.ok ⟨⟨some [], some [], some (4, 5, 6), some [7, 8, 9]⟩, (4, 5, 6)⟩ ∧
    mkEclipseGridInspector ⟨some [], some [], none, some [7, 8, 9]⟩ =
      Except.ok ⟨⟨some [], some [], none, some [7, 8, 9]⟩, (7, 8, 9)⟩ := by
  refine ⟨?_, ?_, ?_⟩
  · exact (mkEclipseGridInspector_spec.1 _).mpr (Or.inr (Or.inl rfl))
  · exact mkEclipseGridInspector_spec.2.1 _ (4, 5, 6) rfl rfl rfl
  · exact mkEclipseGridInspector_spec.2.2 _ 7 8 9 [] rfl rfl rfl rfl

/-- C9 counterexample: construction succeeds even though the dimension
triple has a zero first component, both when the triple comes from
SPECGRID and when it comes from DIMENS, so the stored grid size is not
strictly positive. -/
theorem mkEclipseGridInspector_zero_dim_ok :
    mkEclipseGridInspector ⟨some [], some [], some (0, 5, 5), none⟩ =
      Except.ok ⟨⟨some [], some [], some (0, 5, 5), none⟩, (0, 5, 5)⟩ ∧
    mkEclipseGridInspector ⟨some [], some [], none, some [0, 5, 5]⟩ =
      Except.ok ⟨⟨some [], some [], none, some [0, 5, 5]⟩, (0, 5, 5)⟩ ∧
    ¬(0 < (0:Int)) :=
  ⟨rfl, rfl, by decide⟩

/-- C9 amended: construction performs no positivity validation of the
dimension triple, whether it comes from SPECGRID or from DIMENS; a triple
with a zero or negative component is stored as-is and construction still
succeeds. -/
theorem mkEclipseGridInspector_no_positivity_check :
    (∀ (p : GridDataSource) (a b c : Int),
      p.coord.isSome → p.zcorn.isSome → p.specgrid = some (a, b, c) →
      (a ≤ 0 ∨ b ≤ 0 ∨ c ≤ 0) →
      mkEclipseGridInspector p = Except.ok ⟨p, (a, b, c)⟩) ∧
    (∀ (p : GridDataSource) (a b c : Int) (rest : List Int),
      p.coord.isSome → p.zcorn.isSome → p.specgrid = none →
      p.dimens = some (a :: b :: c :: rest) →
      (a ≤ 0 ∨ b ≤ 0 ∨ c ≤ 0) →
      mkEclipseGridInspector p = Except.ok ⟨p, (a, b, c)⟩) := by
  constructor
  · rintro ⟨co, zc, sg, dm⟩ a b c hco hzc hsg _
    rcases co with _ | co
    · simp at hco
    rcases zc with _ | zc
    · simp at hzc
    subst hsg
    simp [mkEclipseGridInspector]
  · rintro ⟨co, zc, sg, dm⟩ a b c rest hco hzc hsg hdm _
    rcases co with _ | co
    · simp at hco
    rcases zc with _ | zc
    · simp at hzc
    subst hsg
    subst hdm
    simp [mkEclipseGridInspector, intAt, Except.bind]

/-- Witness for the amended C9: a negative SPECGRID dimension and a
zero-or-negative DIMENS triple both construct successfully. -/
theorem mkEclipseGridInspector_no_positivity_check_w :
    mkEclipseGridInspector ⟨some [], some [], some (-3, 5, 5), none⟩ =
      Except.ok ⟨⟨some [], some [], some (-3, 5, 5), none⟩, (-3, 5, 5)⟩ ∧
    mkEclipseGridInspector ⟨some [], some [], none, some [0, -4, 6]⟩ =
      Except.ok ⟨⟨some [], some [], none, some [0, -4, 6]⟩, (0, -4, 6)⟩ :=
  ⟨mkEclipseGridInspector_no_positivity_check.1 _ (-3) 5 5 rfl rfl rfl
     (Or.inl (by norm_num)),
   mkEclipseGridInspector_no_positivity_check.2 _ 0 (-4) 6 [] rfl rfl rfl rfl
     (Or.inl (by norm_num))⟩

/-- C2 counterexample: `cellZvals` (the spec's cellCorners) performs no
logical-coordinate bounds check: with grid size (2,2,2) and a correctly
sized ZCORN it happily returns 8 values for the out-of-bounds first
coordinate i = 3 instead of failing with an out-of-bounds error, and those
values are read from ZCORN. -/
theorem cellZvals_no_bounds_check :
    ¬((3:Int) < 2) ∧
    cellZvals ⟨⟨none, some ((List.range 64).map (fun n => (n:ℚ))), none, none⟩,
        (2, 2, 2)⟩ 3 0 0 =
      Except.ok ⟨6, 7, 10, 11, 22, 23, 26, 27⟩ :=
  ⟨by decide, rfl⟩

/-- C2 amended: `cellVolume` and `cellDips` called with any coordinate
outside its axis range fail with the out-of-bounds error naming the first
offending axis, for every data source whatsoever (so neither COORD nor
ZCORN is read); `cellZvals` has no such check. -/
theorem boundsRejection :
    ∀ (nx ny nz i j k : Int) (p : GridDataSource),
      ((i < 0 ∨ nx ≤ i) →
        cellDips ⟨p, (nx, ny, nz)⟩ i j k = Except.error (Err.outOfBounds 1) ∧
        cellVolumeVerticalPillars ⟨p, (nx, ny, nz)⟩ i j k =
          Except.error (Err.outOfBounds 1)) ∧
      (0 ≤ i → i < nx → (j < 0 ∨ ny ≤ j) →
        cellDips ⟨p, (nx, ny, nz)⟩ i j k = Except.error (Err.outOfBounds 2) ∧
        cellVolumeVerticalPillars ⟨p, (nx, ny, nz)⟩ i j k =
          Except.error (Err.outOfBounds 2)) ∧
      (0 ≤ i → i < nx → 0 ≤ j → j < ny → (k < 0 ∨ nz ≤ k) →
        cellDips ⟨p, (nx, ny, nz)⟩ i j k = Except.error (Err.outOfBounds 3) ∧
        cellVolumeVerticalPillars ⟨p, (nx, ny, nz)⟩ i j k =
          Except.error (Err.outOfBounds 3)) := by
  intro nx ny nz i j k p
  refine ⟨fun h => ⟨?_, ?_⟩, fun hi0 hi h => ⟨?_, ?_⟩, fun hi0 hi hj0 hj h => ⟨?_, ?_⟩⟩
  · simp only [cellDips]
    rw [checkLogicalCoords_oob1 nx ny nz i j k h]
    rfl
  · simp only [cellVolumeVerticalPillars]
    rw [checkLogicalCoords_oob1 nx ny nz i j k h]
    rfl
  · simp only [cellDips]
    rw [checkLogicalCoords_oob2 nx ny nz i j k (by omega) h]
    rfl
  · simp only [cellVolumeVerticalPillars]
    rw [checkLogicalCoords_oob2 nx ny nz i j k (by omega) h]
    rfl
  · simp only [cellDips]
    rw [checkLogicalCoords_oob3 nx ny nz i j k (by omega) (by omega) h]
    rfl
  · simp only [cellVolumeVerticalPillars]
    rw [checkLogicalCoords_oob3 nx ny nz i j k (by omega) (by omega) h]
    rfl

/-- Witness for the amended C2 on a 1×1×1 grid with an empty data source:
each axis violation produces its own error without any array present. -/
theorem boundsRejection_w :
    (cellDips ⟨srcEmpty, (1, 1, 1)⟩ (-1) 0 0 = Except.error (Err.outOfBounds 1) ∧
     cellVolumeVerticalPillars ⟨srcEmpty, (1, 1, 1)⟩ (-1) 0 0 =
       Except.error (Err.outOfBounds 1)) ∧
    (cellDips ⟨srcEmpty, (1, 1, 1)⟩ 0 5 0 = Except.error (Err.outOfBounds 2) ∧
     cellVolumeVerticalPillars ⟨srcEmpty, (1, 1, 1)⟩ 0 5 0 =
       Except.error (Err.outOfBounds 2)) ∧
    (cellDips ⟨srcEmpty, (1, 1, 1)⟩ 0 0 (-7) = Except.error (Err.outOfBounds 3) ∧
     cellVolumeVerticalPillars ⟨srcEmpty, (1, 1, 1)⟩ 0 0 (-7) =
       Except.error (Err.outOfBounds 3)) :=
  ⟨(boundsRejection 1 1 1 (-1) 0 0 srcEmpty).1 (by norm_num),
   (boundsRejection 1 1 1 0 5 0 srcEmpty).2.1 (by norm_num) (by norm_num) (by norm_num),
   (boundsRejection 1 1 1 0 0 (-7) srcEmpty).2.2 (by norm_num) (by norm_num)
     (by norm_num) (by norm_num) (by norm_num)⟩

/-- Successful corner extraction: for an in-bounds cell of a grid whose
ZCORN has the expected size, `cellZvals` returns the 8 stride-addressed
entries of ZCORN. -/
theorem cellZvals_ok (nx ny nz i j k : Int) (zc : List ℚ) (co : Option (List ℚ))
    (sg : Option (Int × Int × Int)) (dm : Option (List Int))
    (hi0 : 0 ≤ i) (hi : i < nx) (hj0 : 0 ≤ j) (hj : j < ny)
    (hk0 : 0 ≤ k) (hk : k < nz)
    (hz : (zc.length : Int) = 8*(nx*ny*nz)) :
    cellZvals ⟨⟨co, some zc, sg, dm⟩, (nx, ny, nz)⟩ i j k =
      Except.ok
        ⟨zc.getD (2*(i*1 + j*(2*nx) + k*(4*nx*ny))).toNat 0,
         zc.getD (2*(i*1 + j*(2*nx) + k*(4*nx*ny)) + 1).toNat 0,
         zc.getD (2*(i*1 + j*(2*nx) + k*(4*nx*ny)) + 2*nx).toNat 0,
         zc.getD (2*(i*1 + j*(2*nx) + k*(4*nx*ny)) + 2*nx + 1).toNat 0,
         zc.getD (2*(i*1 + j*(2*nx) + k*(4*nx*ny)) + 4*nx*ny).toNat 0,
         zc.getD (2*(i*1 + j*(2*nx) + k*(4*nx*ny)) + 4*nx*ny + 1).toNat 0,
         zc.getD (2*(i*1 + j*(2*nx) + k*(4*nx*ny)) + 4*nx*ny + 2*nx).toNat 0,
         zc.getD (2*(i*1 + j*(2*nx) + k*(4*nx*ny)) + 4*nx*ny + 2*nx + 1).toNat 0⟩ := by
  have hjb : j*(2*nx) ≤ (ny-1)*(2*nx) :=
    mul_le_mul_of_nonneg_right (by omega) (by omega)
  have hjb0 : (0:ℤ) ≤ j*(2*nx) := mul_nonneg (by omega) (by omega)
  have hxy : (0:ℤ) ≤ nx*ny := mul_nonneg (by omega) (by omega)
  have hkb : k*(4*nx*ny) ≤ (nz-1)*(4*nx*ny) :=
    mul_le_mul_of_nonneg_right (by omega) (by linarith)
  have hkb0 : (0:ℤ) ≤ k*(4*nx*ny) := mul_nonneg (by omega) (by linarith)
  have key : 2*(i*1 + j*(2*nx) + k*(4*nx*ny)) + (4*nx*ny + 2*nx + 1) < 8*(nx*ny*nz) := by
    nlinarith [hjb, hkb, hi]
  have hix0 : (0:ℤ) ≤ 2*(i*1 + j*(2*nx) + k*(4*nx*ny)) := by linarith
  have e0 := atIdx_ok zc (2*(i*1 + j*(2*nx) + k*(4*nx*ny))) hix0 (by rw [hz]; linarith)
  have e1 := atIdx_ok zc (2*(i*1 + j*(2*nx) + k*(4*nx*ny)) + 1)
    (by linarith) (by rw [hz]; linarith)
  have e2 := atIdx_ok zc (2*(i*1 + j*(2*nx) + k*(4*nx*ny)) + 2*nx)
    (by linarith) (by rw [hz]; linarith)
  have e3 := atIdx_ok zc (2*(i*1 + j*(2*nx) + k*(4*nx*ny)) + 2*nx + 1)
    (by linarith) (by rw [hz]; linarith)
  have e4 := atIdx_ok zc (2*(i*1 + j*(2*nx) + k*(4*nx*ny)) + 4*nx*ny)
    (by linarith) (by rw [hz]; linarith)
  have e5 := atIdx_ok zc (2*(i*1 + j*(2*nx) + k*(4*nx*ny)) + 4*nx*ny + 1)
    (by linarith) (by rw [hz]; linarith)
  have e6 := atIdx_ok zc (2*(i*1 + j*(2*nx) + k*(4*nx*ny)) + 4*nx*ny + 2*nx)
    (by linarith) (by rw [hz]; linarith)
  have e7 := atIdx_ok zc (2*(i*1 + j*(2*nx) + k*(4*nx*ny)) + 4*nx*ny + 2*nx + 1)
    (by linarith) (by rw [hz]; linarith)
  simp only [cellZvals, getFloatingPointValue, Except.bind]
  rw [if_neg (not_not_intro hz.symm)]
  simp only [e0, e1, e2, e3, e4, e5, e6, e7, Except.bind]

/-- Spec-side stride along the i axis (one low/high pair per cell). -/
def stride_i : Int := 1

/-- Spec-side stride along the j axis. -/
def stride_j (nx : Int) : Int := 2*nx

/-- Spec-side stride along the k axis. -/
def stride_k (nx ny : Int) : Int := 4*nx*ny

/-- Spec-side base offset of a cell in the ZCORN array. -/
def zcornBase (nx ny i j k : Int) : Int :=
  2*(i*stride_i + j*stride_j nx + k*stride_k nx ny)

/-- Spec-side read of a ZCORN entry at an offset from a base. -/
def zAtOffset (zcorn : List ℚ) (base off : Int) : ℚ :=
  zcorn.getD (base + off).toNat 0

/-- C6: for an in-bounds cell with a correctly sized ZCORN, `cellZvals`
returns exactly the 8 ZCORN values at offsets 0, stride_i, stride_j,
stride_j+stride_i, stride_k, stride_k+stride_i, stride_k+stride_j,
stride_k+stride_j+stride_i from the base offset
2*(i*stride_i + j*stride_j + k*stride_k), in the corner order
(LLL, HLL, LHL, HHL, LLH, HLH, LHH, HHH). -/
theorem cellZvals_corner_offsets (nx ny nz i j k : Int) (zc : List ℚ)
    (co : Option (List ℚ)) (sg : Option (Int × Int × Int)) (dm : Option (List Int))
    (hi0 : 0 ≤ i) (hi : i < nx) (hj0 : 0 ≤ j) (hj : j < ny)
    (hk0 : 0 ≤ k) (hk : k < nz)
    (hz : (zc.length : Int) = 8*(nx*ny*nz)) :
    cellZvals ⟨⟨co, some zc, sg, dm⟩, (nx, ny, nz)⟩ i j k =
      Except.ok
        ⟨zAtOffset zc (zcornBase nx ny i j k) 0,
         zAtOffset zc (zcornBase nx ny i j k) stride_i,
         zAtOffset zc (zcornBase nx ny i j k) (stride_j nx),
         zAtOffset zc (zcornBase nx ny i j k) (stride_j nx + stride_i),
         zAtOffset zc (zcornBase nx ny i j k) (stride_k nx ny),
         zAtOffset zc (zcornBase nx ny i j k) (stride_k nx ny + stride_i),
         zAtOffset zc (zcornBase nx ny i j k) (stride_k nx ny + stride_j nx),
         zAtOffset zc (zcornBase nx ny i j k) (stride_k nx ny + stride_j nx + stride_i)⟩ := by
  rw [cellZvals_ok nx ny nz i j k zc co sg dm hi0 hi hj0 hj hk0 hk hz]
  simp only [zAtOffset, zcornBase, stride_i, stride_j, stride_k, add_zero]
  ring_nf

/-- Witness for C6 on a concrete 1×1×1 grid. -/
theorem cellZvals_corner_offsets_w :
    cellZvals ⟨⟨none, some [0, 0, 0, 0, 3, 3, 3, 3], none, none⟩, (1, 1, 1)⟩ 0 0 0 =
      Except.ok
        ⟨zAtOffset [0, 0, 0, 0, 3, 3, 3, 3] (zcornBase 1 1 0 0 0) 0,
         zAtOffset [0, 0, 0, 0, 3, 3, 3, 3] (zcornBase 1 1 0 0 0) stride_i,
         zAtOffset [0, 0, 0, 0, 3, 3, 3, 3] (zcornBase 1 1 0 0 0) (stride_j 1),
         zAtOffset [0, 0, 0, 0, 3, 3, 3, 3] (zcornBase 1 1 0 0 0) (stride_j 1 + stride_i),
         zAtOffset [0, 0, 0, 0, 3, 3, 3, 3] (zcornBase 1 1 0 0 0) (stride_k 1 1),
         zAtOffset [0, 0, 0, 0, 3, 3, 3, 3] (zcornBase 1 1 0 0 0) (stride_k 1 1 + stride_i),
         zAtOffset [0, 0, 0, 0, 3, 3, 3, 3] (zcornBase 1 1 0 0 0) (stride_k 1 1 + stride_j 1),
         zAtOffset [0, 0, 0, 0, 3, 3, 3, 3] (zcornBase 1 1 0 0 0)
           (stride_k 1 1 + stride_j 1 + stride_i)⟩ :=
  cellZvals_corner_offsets 1 1 1 0 0 0 [0, 0, 0, 0, 3, 3, 3, 3] none none none
    (by decide) (by decide) (by decide) (by decide) (by decide) (by decide) (by decide)

/-- Spec-side top (x,y) pair of pillar `pix` (first two of its 6 COORD
values). -/
def pillarTop (coord : List ℚ) (pix : Int) : ℚ × ℚ :=
  (coord.getD (6*pix).toNat 0, coord.getD (6*pix+1).toNat 0)

/-- Spec-side cross-sectional area: half the signed 2-D cross product of
the two diagonals of the quadrilateral of the cell's 4 pillar top points
(pillar order 0 = near, 1 = +x, 2 = +y, 3 = +x+y; diag1 = p3 - p0,
diag2 = p2 - p1). -/
def specSignedArea (coord : List ℚ) (nx i j : Int) : ℚ :=
  let pix := i + j*(nx+1)
  let p0 := pillarTop coord pix
  let p1 := pillarTop coord (pix+1)
  let p2 := pillarTop coord (pix+(nx+1))
  let p3 := pillarTop coord (pix+(nx+1)+1)
  (1/2)*((p3.1-p0.1)*(p2.2-p1.2) - (p3.2-p0.2)*(p2.1-p1.1))

/-- Area per the original claim wording: half the MAGNITUDE of the cross
product, which is non-negative by construction. -/
def specMagnitudeArea (coord : List ℚ) (nx i j : Int) : ℚ :=
  let pix := i + j*(nx+1)
  let p0 := pillarTop coord pix
  let p1 := pillarTop coord (pix+1)
  let p2 := pillarTop coord (pix+(nx+1))
  let p3 := pillarTop coord (pix+(nx+1)+1)
  (1/2)*|(p3.1-p0.1)*(p2.2-p1.2) - (p3.2-p0.2)*(p2.1-p1.1)|

/-- Spec-side average of the 4 top-to-bottom depth differences
(LLL to LLH, HLL to HLH, LHL to LHH, HHL to HHH). -/
def specAvgHeight (zcorn : List ℚ) (nx ny i j k : Int) : ℚ :=
  let b := zcornBase nx ny i j k
  ((zAtOffset zcorn b (stride_k nx ny) - zAtOffset zcorn b 0) +
   (zAtOffset zcorn b (stride_k nx ny + stride_i) - zAtOffset zcorn b stride_i) +
   (zAtOffset zcorn b (stride_k nx ny + stride_j nx) - zAtOffset zcorn b (stride_j nx)) +
   (zAtOffset zcorn b (stride_k nx ny + stride_j nx + stride_i) -
      zAtOffset zcorn b (stride_j nx + stride_i)))/4

set_option maxHeartbeats 1600000 in
/-- Evaluation of a successful `cellVolumeVerticalPillars` call: signed
half cross product of the pillar-top diagonals times the average vertical
corner-depth difference. -/
theorem cellVolume_eval (nx ny nz i j k : Int) (coord zc : List ℚ)
    (sg : Option (Int × Int × Int)) (dm : Option (List Int))
    (hi0 : 0 ≤ i) (hi : i < nx) (hj0 : 0 ≤ j) (hj : j < ny)
    (hk0 : 0 ≤ k) (hk : k < nz)
    (hc : (coord.length : Int) = 6*((nx+1)*(ny+1)))
    (hz : (zc.length : Int) = 8*(nx*ny*nz)) :
    cellVolumeVerticalPillars ⟨⟨some coord, some zc, sg, dm⟩, (nx, ny, nz)⟩ i j k =
      Except.ok (specSignedArea coord nx i j * specAvgHeight zc nx ny i j k) := by
  have hnx0 : (0:ℤ) ≤ nx := by omega
  have hj1 : j*(nx+1) ≤ (ny-1)*(nx+1) :=
    mul_le_mul_of_nonneg_right (by omega) (by omega)
  have hj10 : (0:ℤ) ≤ j*(nx+1) := mul_nonneg (by omega) (by omega)
  have key2 : 6*((i + j*(nx+1)) + (nx+1) + 1) + 1 < 6*((nx+1)*(ny+1)) := by
    nlinarith [hj1, hi]
  have f0 := atIdx_ok coord (6*(i + j*(nx+1)))
    (by linarith) (by rw [hc]; linarith)
  have f1 := atIdx_ok coord (6*((i + j*(nx+1))+1))
    (by linarith) (by rw [hc]; linarith)
  have f2 := atIdx_ok coord (6*((i + j*(nx+1))+(nx+1)))
    (by linarith) (by rw [hc]; linarith)
  have f3 := atIdx_ok coord (6*((i + j*(nx+1))+(nx+1)+1))
    (by linarith) (by rw [hc]; linarith)
  have f4 := atIdx_ok coord (6*(i + j*(nx+1))+1)
    (by linarith) (by rw [hc]; linarith)
  have f5 := atIdx_ok coord (6*((i + j*(nx+1))+1)+1)
    (by linarith) (by rw [hc]; linarith)
  have f6 := atIdx_ok coord (6*((i + j*(nx+1))+(nx+1))+1)
    (by linarith) (by rw [hc]; linarith)
  have f7 := atIdx_ok coord (6*((i + j*(nx+1))+(nx+1)+1)+1)
    (by linarith) (by rw [hc]; linarith)
  have hjb : j*(2*nx) ≤ (ny-1)*(2*nx) :=
    mul_le_mul_of_nonneg_right (by omega) (by omega)
  have hjb0 : (0:ℤ) ≤ j*(2*nx) := mul_nonneg (by omega) (by omega)
  have hxy : (0:ℤ) ≤ nx*ny := mul_nonneg (by omega) (by omega)
  have hkb : k*(4*nx*ny) ≤ (nz-1)*(4*nx*ny) :=
    mul_le_mul_of_nonneg_right (by omega) (by linarith)
  have hkb0 : (0:ℤ) ≤ k*(4*nx*ny) := mul_nonneg (by omega) (by linarith)
  have key : 2*(i*1 + j*(2*nx) + k*(4*nx*ny)) + (4*nx*ny + 2*nx + 1) < 8*(nx*ny*nz) := by
    nlinarith [hjb, hkb, hi]
  have e0 := atIdx_ok zc (2*(i*1 + j*(2*nx) + k*(4*nx*ny)))
    (by linarith) (by rw [hz]; linarith)
  have e1 := atIdx_ok zc (2*(i*1 + j*(2*nx) + k*(4*nx*ny)) + 1)
    (by linarith) (by rw [hz]; linarith)
  have e2 := atIdx_ok zc (2*(i*1 + j*(2*nx) + k*(4*nx*ny)) + 2*nx)
    (by linarith) (by rw [hz]; linarith)
  have e3 := atIdx_ok zc (2*(i*1 + j*(2*nx) + k*(4*nx*ny)) + 2*nx + 1)
    (by linarith) (by rw [hz]; linarith)
  have e4 := atIdx_ok zc (2*(i*1 + j*(2*nx) + k*(4*nx*ny)) + 4*nx*ny)
    (by linarith) (by rw [hz]; linarith)
  have e5 := atIdx_ok zc (2*(i*1 + j*(2*nx) + k*(4*nx*ny)) + 4*nx*ny + 1)
    (by linarith) (by rw [hz]; linarith)
  have e6 := atIdx_ok zc (2*(i*1 + j*(2*nx) + k*(4*nx*ny)) + 4*nx*ny + 2*nx)
    (by linarith) (by rw [hz]; linarith)
  have e7 := atIdx_ok zc (2*(i*1 + j*(2*nx) + k*(4*nx*ny)) + 4*nx*ny + 2*nx + 1)
    (by linarith) (by rw [hz]; linarith)
  simp only [cellVolumeVerticalPillars, getFloatingPointValue,
    checkLogicalCoords_ok nx ny nz i j k hi0 hi hj0 hj hk0 hk, Except.bind]
  rw [if_neg (not_not_intro hc.symm), if_neg (not_not_intro hz.symm)]
  simp only [f0, f1, f2, f3, f4, f5, f6, f7, e0, e1, e2, e3, e4, e5, e6, e7,
    Except.bind]
  simp only [specSignedArea, specAvgHeight, pillarTop, zAtOffset, zcornBase,
    stride_i, stride_j, stride_k, add_zero]
  ring_nf

/-- C5 amended: for an in-bounds cell with correctly sized COORD and ZCORN,
the volume equals the SIGNED half cross product of the pillar-top diagonals
times the average vertical corner-depth difference (no absolute value is
taken, so the area factor may be negative). -/
theorem cellVolume_signed_area (nx ny nz i j k : Int) (coord zc : List ℚ)
    (sg : Option (Int × Int × Int)) (dm : Option (List Int))
    (hi0 : 0 ≤ i) (hi : i < nx) (hj0 : 0 ≤ j) (hj : j < ny)
    (hk0 : 0 ≤ k) (hk : k < nz)
    (hc : (coord.length : Int) = 6*((nx+1)*(ny+1)))
    (hz : (zc.length : Int) = 8*(nx*ny*nz)) :
    cellVolumeVerticalPillars ⟨⟨some coord, some zc, sg, dm⟩, (nx, ny, nz)⟩ i j k =
      Except.ok (specSignedArea coord nx i j * specAvgHeight zc nx ny i j k) :=
  cellVolume_eval nx ny nz i j k coord zc sg dm hi0 hi hj0 hj hk0 hk hc hz

/-- C5 counterexample: a mirrored pillar configuration for which the code
returns a negative volume (-2) while the claim's half-magnitude area times
the (positive) average height equals 2. -/
theorem cellVolume_negative_area :
    cellVolumeVerticalPillars
        ⟨⟨some [0, 0, 0, 0, 0, 0, -1, 0, 0, 0, 0, 0,
                0, 1, 0, 0, 0, 0, -1, 1, 0, 0, 0, 0],
          some [0, 0, 0, 0, 2, 2, 2, 2], none, none⟩, (1, 1, 1)⟩ 0 0 0 =
      Except.ok (-2) ∧
    specMagnitudeArea [0, 0, 0, 0, 0, 0, -1, 0, 0, 0, 0, 0,
                       0, 1, 0, 0, 0, 0, -1, 1, 0, 0, 0, 0] 1 0 0 *
      specAvgHeight [0, 0, 0, 0, 2, 2, 2, 2] 1 1 0 0 0 = 2 ∧
    ((-2 : ℚ) ≠ 2) := by
  refine ⟨?_, ?_, by norm_num⟩
  · rw [cellVolume_eval 1 1 1 0 0 0
      [0, 0, 0, 0, 0, 0, -1, 0, 0, 0, 0, 0, 0, 1, 0, 0, 0, 0, -1, 1, 0, 0, 0, 0]
      [0, 0, 0, 0, 2, 2, 2, 2] none none
      (by decide) (by decide) (by decide) (by decide) (by decide) (by decide)
      (by decide) (by decide)]
    norm_num [specSignedArea, specAvgHeight, pillarTop, zAtOffset, zcornBase,
      stride_i, stride_j, stride_k, List.getD, Int.toNat]
  · norm_num [specMagnitudeArea, specAvgHeight, pillarTop, zAtOffset, zcornBase,
      stride_i, stride_j, stride_k, List.getD, Int.toNat]

/-- Witness for the amended C5 on a concrete unit box grid. -/
theorem cellVolume_signed_area_w :
    cellVolumeVerticalPillars
        ⟨⟨some [0, 0, 0, 0, 0, 10, 1, 0, 0, 1, 0, 10,
                0, 1, 0, 0, 1, 10, 1, 1, 0, 1, 1, 10],
          some [0, 0, 0, 0, 3, 3, 3, 3], none, none⟩, (1, 1, 1)⟩ 0 0 0 =
      Except.ok
        (specSignedArea [0, 0, 0, 0, 0, 10, 1, 0, 0, 1, 0, 10,
                         0, 1, 0, 0, 1, 10, 1, 1, 0, 1, 1, 10] 1 0 0 *
         specAvgHeight [0, 0, 0, 0, 3, 3, 3, 3] 1 1 0 0 0) :=
  cellVolume_signed_area 1 1 1 0 0 0
    [0, 0, 0, 0, 0, 10, 1, 0, 0, 1, 0, 10, 0, 1, 0, 0, 1, 10, 1, 1, 0, 1, 1, 10]
    [0, 0, 0, 0, 3, 3, 3, 3] none none
    (by decide) (by decide) (by decide) (by decide) (by decide) (by decide)
    (by decide) (by decide)

/-- Spec-side pillar spacing in x: top x of the +x neighbour pillar minus
top x of the near pillar. -/
def spec_cell_xlength (coord : List ℚ) (nx i j : Int) : ℚ :=
  let pix := i + j*(nx+1)
  coord.getD (6*(pix+1)).toNat 0 - coord.getD (6*pix).toNat 0

/-- Spec-side pillar spacing in y: top y of the +y neighbour pillar minus
top y of the near pillar. -/
def spec_cell_ylength (coord : List ℚ) (nx i j : Int) : ℚ :=
  let pix := i + j*(nx+1)
  coord.getD (6*(pix+(nx+1))+1).toNat 0 - coord.getD (6*pix+1).toNat 0

/-- Spec-side x dip: average over the 4 corner pairs differing only along x
(LLL to HLL, LHL to HHL, LLH to HLH, LHH to HHH) of the depth difference
divided by the x pillar spacing. -/
def specXdip (coord zcorn : List ℚ) (nx ny i j k : Int) : ℚ :=
  let b := zcornBase nx ny i j k
  let xl := spec_cell_xlength coord nx i j
  ((zAtOffset zcorn b stride_i - zAtOffset zcorn b 0)/xl +
   (zAtOffset zcorn b (stride_j nx + stride_i) - zAtOffset zcorn b (stride_j nx))/xl +
   (zAtOffset zcorn b (stride_k nx ny + stride_i) - zAtOffset zcorn b (stride_k nx ny))/xl +
   (zAtOffset zcorn b (stride_k nx ny + stride_j nx + stride_i) -
      zAtOffset zcorn b (stride_k nx ny + stride_j nx))/xl)/4

/-- Spec-side y dip: average over the 4 corner pairs differing only along y
(LLL to LHL, HLL to HHL, LLH to LHH, HLH to HHH) of the depth difference
divided by the y pillar spacing. -/
def specYdip (coord zcorn : List ℚ) (nx ny i j k : Int) : ℚ :=
  let b := zcornBase nx ny i j k
  let yl := spec_cell_ylength coord nx i j
  ((zAtOffset zcorn b (stride_j nx) - zAtOffset zcorn b 0)/yl +
   (zAtOffset zcorn b (stride_j nx + stride_i) - zAtOffset zcorn b stride_i)/yl +
   (zAtOffset zcorn b (stride_k nx ny + stride_j nx) - zAtOffset zcorn b (stride_k nx ny))/yl +
   (zAtOffset zcorn b (stride_k nx ny + stride_j nx + stride_i) -
      zAtOffset zcorn b (stride_k nx ny + stride_i))/yl)/4

set_option maxHeartbeats 1600000 in
/-- C7: for an in-bounds cell with correctly sized arrays and nonzero
pillar spacings, `cellDips` returns the averaged rise-over-run along x and
along y, with the spacings taken from the top coordinates of the adjacent
pillars. -/
theorem cellDips_averages (nx ny nz i j k : Int) (coord zc : List ℚ)
    (sg : Option (Int × Int × Int)) (dm : Option (List Int))
    (hi0 : 0 ≤ i) (hi : i < nx) (hj0 : 0 ≤ j) (hj : j < ny)
    (hk0 : 0 ≤ k) (hk : k < nz)
    (hc : (coord.length : Int) = 6*((nx+1)*(ny+1)))
    (hz : (zc.length : Int) = 8*(nx*ny*nz))
    (hx : spec_cell_xlength coord nx i j ≠ 0)
    (hy : spec_cell_ylength coord nx i j ≠ 0) :
    cellDips ⟨⟨some coord, some zc, sg, dm⟩, (nx, ny, nz)⟩ i j k =
      Except.ok (specXdip coord zc nx ny i j k, specYdip coord zc nx ny i j k) := by
  have hnx0 : (0:ℤ) ≤ nx := by omega
  have hj1 : j*(nx+1) ≤ (ny-1)*(nx+1) :=
    mul_le_mul_of_nonneg_right (by omega) (by omega)
  have hj10 : (0:ℤ) ≤ j*(nx+1) := mul_nonneg (by omega) (by omega)
  have key2 : 6*((i + j*(nx+1)) + (nx+1) + 1) + 1 < 6*((nx+1)*(ny+1)) := by
    nlinarith [hj1, hi]
  have f0 := atIdx_ok coord (6*(i + j*(nx+1)))
    (by linarith) (by rw [hc]; linarith)
  have f1 := atIdx_ok coord (6*((i + j*(nx+1))+1))
    (by linarith) (by rw [hc]; linarith)
  have f4 := atIdx_ok coord (6*(i + j*(nx+1))+1)
    (by linarith) (by rw [hc]; linarith)
  have f6 := atIdx_ok coord (6*((i + j*(nx+1))+(nx+1))+1)
    (by linarith) (by rw [hc]; linarith)
  have hx' : coord.getD (6*((i + j*(nx+1))+1)).toNat 0 -
      coord.getD (6*(i + j*(nx+1))).toNat 0 ≠ 0 := by
    simpa [spec_cell_xlength] using hx
  have hy' : coord.getD (6*((i + j*(nx+1))+(nx+1))+1).toNat 0 -
      coord.getD (6*(i + j*(nx+1))+1).toNat 0 ≠ 0 := by
    simpa [spec_cell_ylength] using hy
  simp only [cellDips, getFloatingPointValue,
    checkLogicalCoords_ok nx ny nz i j k hi0 hi hj0 hj hk0 hk, Except.bind]
  rw [if_neg (not_not_intro hc.symm), if_neg (not_not_intro hz.symm)]
  simp only [cellZvals_ok nx ny nz i j k zc (some coord) sg dm hi0 hi hj0 hj hk0 hk hz,
    f0, f1, Except.bind]
  rw [if_neg hx']
  simp only [f4, f6, Except.bind]
  rw [if_neg hy']
  simp only [specXdip, specYdip, spec_cell_xlength, spec_cell_ylength, zAtOffset,
    zcornBase, stride_i, stride_j, stride_k, add_zero]
  ring_nf

/-- Witness for C7 on a concrete unit box grid with unit pillar spacings. -/
theorem cellDips_averages_w :
    cellDips
        ⟨⟨some [0, 0, 0, 0, 0, 10, 1, 0, 0, 1, 0, 10,
                0, 1, 0, 0, 1, 10, 1, 1, 0, 1, 1, 10],
          some [0, 0, 0, 0, 3, 3, 3, 3], none, none⟩, (1, 1, 1)⟩ 0 0 0 =
      Except.ok
        (specXdip [0, 0, 0, 0, 0, 10, 1, 0, 0, 1, 0, 10,
                   0, 1, 0, 0, 1, 10, 1, 1, 0, 1, 1, 10]
           [0, 0, 0, 0, 3, 3, 3, 3] 1 1 0 0 0,
         specYdip [0, 0, 0, 0, 0, 10, 1, 0, 0, 1, 0, 10,
                   0, 1, 0, 0, 1, 10, 1, 1, 0, 1, 1, 10]
           [0, 0, 0, 0, 3, 3, 3, 3] 1 1 0 0 0) :=
  cellDips_averages 1 1 1 0 0 0
    [0, 0, 0, 0, 0, 10, 1, 0, 0, 1, 0, 10, 0, 1, 0, 0, 1, 10, 1, 1, 0, 1, 1, 10]
    [0, 0, 0, 0, 3, 3, 3, 3] none none
    (by decide) (by decide) (by decide) (by decide) (by decide) (by decide)
    (by decide) (by decide)
    (by norm_num [spec_cell_xlength, List.getD, Int.toNat])
    (by norm_num [spec_cell_ylength, List.getD, Int.toNat])

set_option maxHeartbeats 1600000 in
/-- C10: `cellDips` divides by the pillar spacings without a zero check;
whenever either spacing is zero for an otherwise well-formed query, the
embedded computation reaches the division-by-zero branch, so a nonzero
spacing precondition is needed to keep that branch unreachable. -/
theorem cellDips_division_guard (nx ny nz i j k : Int) (coord zc : List ℚ)
    (sg : Option (Int × Int × Int)) (dm : Option (List Int))
    (hi0 : 0 ≤ i) (hi : i < nx) (hj0 : 0 ≤ j) (hj : j < ny)
    (hk0 : 0 ≤ k) (hk : k < nz)
    (hc : (coord.length : Int) = 6*((nx+1)*(ny+1)))
    (hz : (zc.length : Int) = 8*(nx*ny*nz))
    (h0 : spec_cell_xlength coord nx i j = 0 ∨ spec_cell_ylength coord nx i j = 0) :
    cellDips ⟨⟨some coord, some zc, sg, dm⟩, (nx, ny, nz)⟩ i j k =
      Except.error Err.divisionByZero := by
  have hnx0 : (0:ℤ) ≤ nx := by omega
  have hj1 : j*(nx+1) ≤ (ny-1)*(nx+1) :=
    mul_le_mul_of_nonneg_right (by omega) (by omega)
  have hj10 : (0:ℤ) ≤ j*(nx+1) := mul_nonneg (by omega) (by omega)
  have key2 : 6*((i + j*(nx+1)) + (nx+1) + 1) + 1 < 6*((nx+1)*(ny+1)) := by
    nlinarith [hj1, hi]
  have f0 := atIdx_ok coord (6*(i + j*(nx+1)))
    (by linarith) (by rw [hc]; linarith)
  have f1 := atIdx_ok coord (6*((i + j*(nx+1))+1))
    (by linarith) (by rw [hc]; linarith)
  have f4 := atIdx_ok coord (6*(i + j*(nx+1))+1)
    (by linarith) (by rw [hc]; linarith)
  have f6 := atIdx_ok coord (6*((i + j*(nx+1))+(nx+1))+1)
    (by linarith) (by rw [hc]; linarith)
  simp only [cellDips, getFloatingPointValue,
    checkLogicalCoords_ok nx ny nz i j k hi0 hi hj0 hj hk0 hk, Except.bind]
  rw [if_neg (not_not_intro hc.symm), if_neg (not_not_intro hz.symm)]
  simp only [cellZvals_ok nx ny nz i j k zc (some coord) sg dm hi0 hi hj0 hj hk0 hk hz,
    f0, f1, Except.bind]
  by_cases hxz : coord.getD (6*((i + j*(nx+1))+1)).toNat 0 -
      coord.getD (6*(i + j*(nx+1))).toNat 0 = 0
  · rw [if_pos hxz]
  · rw [if_neg hxz]
    have hy0 : spec_cell_ylength coord nx i j = 0 := by
      rcases h0 with h0 | h0
      · exact absurd (by simpa [spec_cell_xlength] using h0) hxz
      · exact h0
    have hy0' : coord.getD (6*((i + j*(nx+1))+(nx+1))+1).toNat 0 -
        coord.getD (6*(i + j*(nx+1))+1).toNat 0 = 0 := by
      simpa [spec_cell_ylength] using hy0
    simp only [f4, f6, Except.bind]
    rw [if_pos hy0']

/-- Witness for C10: a grid whose +x neighbour pillar has the same top x
coordinate as the near pillar makes `cellDips` hit the division guard. -/
theorem cellDips_division_guard_w :
    cellDips
        ⟨⟨some [0, 0, 0, 0, 0, 10, 0, 0, 0, 1, 0, 10,
                0, 1, 0, 0, 1, 10, 1, 1, 0, 1, 1, 10],
          some [0, 0, 0, 0, 3, 3, 3, 3], none, none⟩, (1, 1, 1)⟩ 0 0 0 =
      Except.error Err.divisionByZero :=
  cellDips_division_guard 1 1 1 0 0 0
    [0, 0, 0, 0, 0, 10, 0, 0, 0, 1, 0, 10, 0, 1, 0, 0, 1, 10, 1, 1, 0, 1, 1, 10]
    [0, 0, 0, 0, 3, 3, 3, 3] none none
    (by decide) (by decide) (by decide) (by decide) (by decide) (by decide)
    (by decide) (by decide)
    (Or.inl (by norm_num [spec_cell_xlength, List.getD, Int.toNat]))

/-- Pure value of one pillar iteration of the `getGridLimits` loop. -/
def limitsPure (coord : List ℚ) (acc : ℚ × ℚ × ℚ × ℚ) (p : Nat) : ℚ × ℚ × ℚ × ℚ :=
  limitsUpd (limitsUpd acc (coord.getD (6*p) 0) (coord.getD (6*p+1) 0))
    (coord.getD (6*p+3) 0) (coord.getD (6*p+4) 0)

/-- The source's compare-and-assign for a minimum is `min`. -/
theorem if_lt_eq_min (a x : ℚ) : (if x < a then x else a) = min a x := by
  rcases le_or_lt a x with h | h
  · rw [if_neg (not_lt.mpr h), min_eq_left h]
  · rw [if_pos h, min_eq_right h.le]

/-- The source's compare-and-assign for a maximum is `max`. -/
theorem if_gt_eq_max (a x : ℚ) : (if x > a then x else a) = max a x := by
  rcases le_or_lt x a with h | h
  · rw [if_neg (not_lt.mpr h), max_eq_left h]
  · rw [if_pos h, max_eq_right h.le]

/-- The `min_element` fold equals the `min` fold. -/
theorem foldl_if_min (l : List ℚ) (a : ℚ) :
    l.foldl (fun acc x => if x < acc then x else acc) a = l.foldl min a := by
  induction l generalizing a with
  | nil => rfl
  | cons x t ih =>
    simp only [List.foldl, if_lt_eq_min]

/-- The `max_element` fold equals the `max` fold. -/
theorem foldl_if_max (l : List ℚ) (a : ℚ) :
    l.foldl (fun acc x => if x > acc then x else acc) a = l.foldl max a := by
  induction l generalizing a with
  | nil => rfl
  | cons x t ih =>
    simp only [List.foldl, if_gt_eq_max]

/-- One loop iteration with all four reads in range succeeds with the pure
update. -/
theorem limitsStep_ok (coord : List ℚ) (acc : ℚ × ℚ × ℚ × ℚ) (p : Nat)
    (h : 6*p+4 < coord.length) :
    limitsStep coord acc p = Except.ok (limitsPure coord acc p) := by
  have ht0 : (6*(p:Int)).toNat = 6*p := by omega
  have ht1 : (6*(p:Int)+1).toNat = 6*p+1 := by omega
  have ht3 : (6*(p:Int)+3).toNat = 6*p+3 := by omega
  have ht4 : (6*(p:Int)+4).toNat = 6*p+4 := by omega
  have e0 := atIdx_ok coord (6*(p:Int)) (by omega) (by omega)
  have e1 := atIdx_ok coord (6*(p:Int)+1) (by omega) (by omega)
  have e3 := atIdx_ok coord (6*(p:Int)+3) (by omega) (by omega)
  have e4 := atIdx_ok coord (6*(p:Int)+4) (by omega) (by omega)
  rw [ht0] at e0
  rw [ht1] at e1
  rw [ht3] at e3
  rw [ht4] at e4
  simp only [limitsStep, e0, e1, e3, e4, Except.bind, limitsPure]

/-- The pillar loop over a list of in-range indices is the pure fold. -/
theorem getGridLimitsLoop_ok (coord : List ℚ) (idxs : List Nat)
    (acc : ℚ × ℚ × ℚ × ℚ) (h : ∀ p ∈ idxs, 6*p+4 < coord.length) :
    getGridLimitsLoop coord idxs acc =
      Except.ok (idxs.foldl (limitsPure coord) acc) := by
  induction idxs generalizing acc with
  | nil => rfl
  | cons p rest ih =>
    simp only [getGridLimitsLoop, limitsStep_ok coord acc p (h p (by simp)),
      Except.bind, List.foldl]
    exact ih _ (fun q hq => h q (by simp [hq]))

/-- Spec-side list of the x entries scanned by `getGridLimits`: the top and
bottom x of each pillar. -/
def topAndBottomXs (coord : List ℚ) (n : Nat) : List ℚ :=
  (List.range n).flatMap fun p => [coord.getD (6*p) 0, coord.getD (6*p+3) 0]

/-- Spec-side list of the y entries scanned by `getGridLimits`: the top and
bottom y of each pillar. -/
def topAndBottomYs (coord : List ℚ) (n : Nat) : List ℚ :=
  (List.range n).flatMap fun p => [coord.getD (6*p+1) 0, coord.getD (6*p+4) 0]

/-- The x entries the original claim says are scanned: top x only. -/
def topXs (coord : List ℚ) (n : Nat) : List ℚ :=
  (List.range n).map fun p => coord.getD (6*p) 0

/-- The y entries the original claim says are scanned: top y only. -/
def topYs (coord : List ℚ) (n : Nat) : List ℚ :=
  (List.range n).map fun p => coord.getD (6*p+1) 0

/-- The pure pillar fold splits into componentwise min/max folds over the
scanned entry lists. -/
theorem range_foldl_limitsPure (coord : List ℚ) (n : Nat) (a b c d : ℚ) :
    (List.range n).foldl (limitsPure coord) (a, b, c, d) =
      ((topAndBottomXs coord n).foldl min a,
       (topAndBottomXs coord n).foldl max b,
       (topAndBottomYs coord n).foldl min c,
       (topAndBottomYs coord n).foldl max d) := by
  induction n with
  | zero => simp [topAndBottomXs, topAndBottomYs]
  | succ n ih =>
    have hx : topAndBottomXs coord (n+1) =
        topAndBottomXs coord n ++ [coord.getD (6*n) 0, coord.getD (6*n+3) 0] := by
      simp [topAndBottomXs, List.range_succ]
    have hy : topAndBottomYs coord (n+1) =
        topAndBottomYs coord n ++ [coord.getD (6*n+1) 0, coord.getD (6*n+4) 0] := by
      simp [topAndBottomYs, List.range_succ]
    rw [List.range_succ, List.foldl_append, ih, hx, hy]
    simp only [List.foldl_append, List.foldl, limitsPure, limitsUpd,
      if_lt_eq_min, if_gt_eq_max]

/-- Evaluation of a `getGridLimits` call whose pillar reads are all in
range and whose ZCORN is nonempty: x and y extrema are min/max folds over
the top-and-bottom entry lists, z extrema are folds over all of ZCORN.
Note that no array size is validated. -/
theorem getGridLimits_eval (nx ny nz : Int) (coord : List ℚ) (zh : ℚ) (zt : List ℚ)
    (sgd : Int × Int × Int) (dm : Option (List Int))
    (hread : ∀ p : Nat, p < ((nx+1)*(ny+1)).toNat → 6*p+4 < coord.length) :
    getGridLimits ⟨⟨some coord, some (zh :: zt), some sgd, dm⟩, (nx, ny, nz)⟩ =
      Except.ok
        ((topAndBottomXs coord ((nx+1)*(ny+1)).toNat).foldl min DBL_MAX,
         (topAndBottomXs coord ((nx+1)*(ny+1)).toNat).foldl max (-DBL_MAX),
         (topAndBottomYs coord ((nx+1)*(ny+1)).toNat).foldl min DBL_MAX,
         (topAndBottomYs coord ((nx+1)*(ny+1)).toNat).foldl max (-DBL_MAX),
         zt.foldl min zh, zt.foldl max zh) := by
  simp only [getGridLimits, getFloatingPointValue, Except.bind]
  rw [if_pos (by simp)]
  rw [getGridLimitsLoop_ok coord _ _
    (fun p hp => hread p (by simpa using hp))]
  simp only [Except.bind, range_foldl_limitsPure, minElementVal, maxElementVal,
    foldl_if_min, foldl_if_max]

/-- C3 amended: with a correctly sized COORD and a nonempty ZCORN,
`getGridLimits` computes xmin/xmax/ymin/ymax as min/max folds over the top
AND bottom (x,y) pairs of the `(nx+1)*(ny+1)` pillars (entries 0,1 and 3,4
of each pillar's 6 values), and zmin/zmax over the entire ZCORN array. -/
theorem getGridLimits_scans (nx ny nz : Int) (coord : List ℚ) (zh : ℚ) (zt : List ℚ)
    (sgd : Int × Int × Int) (dm : Option (List Int))
    (hlen : (coord.length : Int) = 6*((nx+1)*(ny+1))) :
    getGridLimits ⟨⟨some coord, some (zh :: zt), some sgd, dm⟩, (nx, ny, nz)⟩ =
      Except.ok
        ((topAndBottomXs coord ((nx+1)*(ny+1)).toNat).foldl min DBL_MAX,
         (topAndBottomXs coord ((nx+1)*(ny+1)).toNat).foldl max (-DBL_MAX),
         (topAndBottomYs coord ((nx+1)*(ny+1)).toNat).foldl min DBL_MAX,
         (topAndBottomYs coord ((nx+1)*(ny+1)).toNat).foldl max (-DBL_MAX),
         zt.foldl min zh, zt.foldl max zh) := by
  apply getGridLimits_eval
  intro p hp
  generalize hP : (nx+1)*(ny+1) = P at hlen hp
  omega

/-- Witness for the amended C3 on a concrete 1×1×1 grid. -/
theorem getGridLimits_scans_w :
    getGridLimits
        ⟨⟨some [0, 0, 0, 0, 0, 10, 1, 0, 0, 1, 0, 10,
                0, 1, 0, 0, 1, 10, 1, 1, 0, 1, 1, 10],
          some (0 :: [0, 0, 0, 3, 3, 3, 3]), some (1, 1, 1), none⟩, (1, 1, 1)⟩ =
      Except.ok
        ((topAndBottomXs [0, 0, 0, 0, 0, 10, 1, 0, 0, 1, 0, 10,
                          0, 1, 0, 0, 1, 10, 1, 1, 0, 1, 1, 10]
            (((1:Int)+1)*((1:Int)+1)).toNat).foldl min DBL_MAX,
         (topAndBottomXs [0, 0, 0, 0, 0, 10, 1, 0, 0, 1, 0, 10,
                          0, 1, 0, 0, 1, 10, 1, 1, 0, 1, 1, 10]
            (((1:Int)+1)*((1:Int)+1)).toNat).foldl max (-DBL_MAX),
         (topAndBottomYs [0, 0, 0, 0, 0, 10, 1, 0, 0, 1, 0, 10,
                          0, 1, 0, 0, 1, 10, 1, 1, 0, 1, 1, 10]
            (((1:Int)+1)*((1:Int)+1)).toNat).foldl min DBL_MAX,
         (topAndBottomYs [0, 0, 0, 0, 0, 10, 1, 0, 0, 1, 0, 10,
                          0, 1, 0, 0, 1, 10, 1, 1, 0, 1, 1, 10]
            (((1:Int)+1)*((1:Int)+1)).toNat).foldl max (-DBL_MAX),
         [0, 0, 0, 3, 3, 3, 3].foldl min 0, [0, 0, 0, 3, 3, 3, 3].foldl max 0) :=
  getGridLimits_scans 1 1 1
    [0, 0, 0, 0, 0, 10, 1, 0, 0, 1, 0, 10, 0, 1, 0, 0, 1, 10, 1, 1, 0, 1, 1, 10]
    0 [0, 0, 0, 3, 3, 3, 3] (1, 1, 1) none (by decide)

/-- C3 counterexample: a 1×1×1 grid whose pillar 0 has bottom coordinates
(100, -7); the code returns xmax = 100 and ymin = -7, influenced by the
bottom entries, while the top-only maximum of the claim is 10. -/
theorem getGridLimits_includes_bottoms :
    getGridLimits
        ⟨⟨some [0, 0, 0, 100, -7, 0, 10, 0, 0, 10, 0, 0,
                0, 10, 0, 0, 10, 0, 10, 10, 0, 10, 10, 0],
          some [100, 101, 102, 103, 110, 109, 108, 107], some (1, 1, 1), none⟩,
         (1, 1, 1)⟩ =
      Except.ok (0, 100, -7, 10, 100, 110) ∧
    (topXs [0, 0, 0, 100, -7, 0, 10, 0, 0, 10, 0, 0,
            0, 10, 0, 0, 10, 0, 10, 10, 0, 10, 10, 0] 4).foldl max (-DBL_MAX) = 10 ∧
    ((100:ℚ) ≠ 10) := by
  refine ⟨?_, ?_, by norm_num⟩
  · rw [getGridLimits_eval 1 1 1
      [0, 0, 0, 100, -7, 0, 10, 0, 0, 10, 0, 0, 0, 10, 0, 0, 10, 0, 10, 10, 0, 10, 10, 0]
      100 [101, 102, 103, 110, 109, 108, 107] (1, 1, 1) none (by decide)]
    simp only [show (((1:Int)+1)*((1:Int)+1)).toNat = 4 from rfl,
      show List.range 4 = [0, 1, 2, 3] from rfl, topAndBottomXs, topAndBottomYs,
      List.flatMap_cons, List.flatMap_nil, List.append_nil, List.cons_append]
    norm_num [List.getD, List.foldl_cons, List.foldl_nil, DBL_MAX,
      min_def, max_def]
  · simp only [show List.range 4 = [0, 1, 2, 3] from rfl, topXs, List.map_cons,
      List.map_nil]
    norm_num [List.getD, List.foldl_cons, List.foldl_nil, DBL_MAX,
      min_def, max_def]

/-- C4 amended: `cellVolume`, `cellDips` and `cellZvals` validate on each
call the lengths of the arrays they use — COORD against 6*(nx+1)*(ny+1)
for volume and dips, ZCORN against 8*nx*ny*nz for all three — failing with
the corresponding size-mismatch error (in particular a ZCORN one element
short fails all three); `getGridLimits` performs no size validation. -/
theorem sizeValidation (nx ny nz i j k : Int) (coord zc : List ℚ)
    (sg : Option (Int × Int × Int)) (dm : Option (List Int))
    (hi0 : 0 ≤ i) (hi : i < nx) (hj0 : 0 ≤ j) (hj : j < ny)
    (hk0 : 0 ≤ k) (hk : k < nz) :
    ((zc.length : Int) ≠ 8*(nx*ny*nz) →
      cellZvals ⟨⟨some coord, some zc, sg, dm⟩, (nx, ny, nz)⟩ i j k =
        Except.error Err.zcornSizeMismatch ∧
      ((coord.length : Int) = 6*((nx+1)*(ny+1)) →
        cellDips ⟨⟨some coord, some zc, sg, dm⟩, (nx, ny, nz)⟩ i j k =
          Except.error Err.zcornSizeMismatch ∧
        cellVolumeVerticalPillars ⟨⟨some coord, some zc, sg, dm⟩, (nx, ny, nz)⟩ i j k =
          Except.error Err.zcornSizeMismatch)) ∧
    ((coord.length : Int) ≠ 6*((nx+1)*(ny+1)) →
      cellDips ⟨⟨some coord, some zc, sg, dm⟩, (nx, ny, nz)⟩ i j k =
        Except.error Err.coordSizeMismatch ∧
      cellVolumeVerticalPillars ⟨⟨some coord, some zc, sg, dm⟩, (nx, ny, nz)⟩ i j k =
        Except.error Err.coordSizeMismatch) := by
  constructor
  · intro hzc
    refine ⟨?_, fun hcc => ⟨?_, ?_⟩⟩
    · simp only [cellZvals, getFloatingPointValue, Except.bind]
      rw [if_pos (Ne.symm hzc)]
    · simp only [cellDips, getFloatingPointValue,
        checkLogicalCoords_ok nx ny nz i j k hi0 hi hj0 hj hk0 hk, Except.bind]
      rw [if_neg (not_not_intro hcc.symm), if_pos (Ne.symm hzc)]
    · simp only [cellVolumeVerticalPillars, getFloatingPointValue,
        checkLogicalCoords_ok nx ny nz i j k hi0 hi hj0 hj hk0 hk, Except.bind]
      rw [if_neg (not_not_intro hcc.symm), if_pos (Ne.symm hzc)]
  · intro hcc
    constructor
    · simp only [cellDips, getFloatingPointValue,
        checkLogicalCoords_ok nx ny nz i j k hi0 hi hj0 hj hk0 hk, Except.bind]
      rw [if_pos (Ne.symm hcc)]
    · simp only [cellVolumeVerticalPillars, getFloatingPointValue,
        checkLogicalCoords_ok nx ny nz i j k hi0 hi hj0 hj hk0 hk, Except.bind]
      rw [if_pos (Ne.symm hcc)]

/-- Witness for the amended C4 on a 1×1×1 grid: a ZCORN one element short
(7 instead of 8) fails all three cell queries with the ZCORN size error,
and a COORD one element short (23 instead of 24) fails volume and dips
with the COORD size error. -/
theorem sizeValidation_w :
    (cellZvals ⟨⟨some (List.replicate 24 0), some (List.replicate 7 0), none, none⟩,
        (1, 1, 1)⟩ 0 0 0 = Except.error Err.zcornSizeMismatch ∧
     cellDips ⟨⟨some (List.replicate 24 0), some (List.replicate 7 0), none, none⟩,
        (1, 1, 1)⟩ 0 0 0 = Except.error Err.zcornSizeMismatch ∧
     cellVolumeVerticalPillars
        ⟨⟨some (List.replicate 24 0), some (List.replicate 7 0), none, none⟩,
        (1, 1, 1)⟩ 0 0 0 = Except.error Err.zcornSizeMismatch) ∧
    (cellDips ⟨⟨some (List.replicate 23 0), some (List.replicate 8 0), none, none⟩,
        (1, 1, 1)⟩ 0 0 0 = Except.error Err.coordSizeMismatch ∧
     cellVolumeVerticalPillars
        ⟨⟨some (List.replicate 23 0), some (List.replicate 8 0), none, none⟩,
        (1, 1, 1)⟩ 0 0 0 = Except.error Err.coordSizeMismatch) := by
  have h1 := (sizeValidation 1 1 1 0 0 0 (List.replicate 24 0) (List.replicate 7 0)
    none none (by decide) (by decide) (by decide) (by decide) (by decide)
    (by decide)).1 (by decide)
  have h2 := (sizeValidation 1 1 1 0 0 0 (List.replicate 23 0) (List.replicate 8 0)
    none none (by decide) (by decide) (by decide) (by decide) (by decide)
    (by decide)).2 (by decide)
  exact ⟨⟨h1.1, (h1.2 (by decide)).1, (h1.2 (by decide)).2⟩, h2⟩

/-- C4 counterexample: `getGridLimits` with a COORD of length 30 (instead
of 24) and a ZCORN of length 9 (instead of 8) succeeds instead of failing
with a size-mismatch error: it performs no size validation. -/
theorem getGridLimits_no_size_validation :
    (List.replicate 30 (0:ℚ)).length = 30 ∧
    (5 :: List.replicate 8 (5:ℚ)).length = 9 ∧
    getGridLimits
        ⟨⟨some (List.replicate 30 0), some (5 :: List.replicate 8 5),
          some (1, 1, 1), none⟩, (1, 1, 1)⟩ =
      Except.ok
        ((topAndBottomXs (List.replicate 30 0) (((1:Int)+1)*((1:Int)+1)).toNat).foldl
            min DBL_MAX,
         (topAndBottomXs (List.replicate 30 0) (((1:Int)+1)*((1:Int)+1)).toNat).foldl
            max (-DBL_MAX),
         (topAndBottomYs (List.replicate 30 0) (((1:Int)+1)*((1:Int)+1)).toNat).foldl
            min DBL_MAX,
         (topAndBottomYs (List.replicate 30 0) (((1:Int)+1)*((1:Int)+1)).toNat).foldl
            max (-DBL_MAX),
         (List.replicate 8 (5:ℚ)).foldl min 5, (List.replicate 8 (5:ℚ)).foldl max 5) :=
  ⟨by decide, by decide,
   getGridLimits_eval 1 1 1 (List.replicate 30 0) 5 (List.replicate 8 5)
     (1, 1, 1) none (by decide)⟩

end Dune
